import Mathlib

/-!
Shallow embedding of `two1/lib/bitserv/payment_methods.py`: the three payment
method variants (`OnChain`, `PaymentChannel`, `BitTransfer`) and the exception
classes declared at the top of that module.  External collaborators (the
transaction codec, the broadcast provider, the dedup database, the HTTP
verification authority, the channel server) are passed in as explicit inputs,
so each `redeem_payment` becomes a pure function whose result records the
outcome (`Except PyErr Bool`), the updated ledger state, and whether the
network side effect (broadcast / POST) was attempted.
-/

namespace TwoOne

/-- The Python exception classes declared in `payment_methods.py` lines 13-34,
plus the builtin `Exception` root they derive from. -/
inductive PyClass where
  | exception
  | paymentError
  | insufficientPaymentError
  | invalidPaymentParameterError
  | duplicatePaymentError
  | transactionBroadcastError
  | serverError
  deriving DecidableEq, BEq, Repr

/-- The direct base class of each exception class, exactly as written in the
source: the four payment failure kinds derive `PaymentError`, while
`ServerError` derives `Exception` directly. -/
def superclass : PyClass → Option PyClass
  | .exception => none
  | .paymentError => some .exception
  | .insufficientPaymentError => some .paymentError
  | .invalidPaymentParameterError => some .paymentError
  | .duplicatePaymentError => some .paymentError
  | .transactionBroadcastError => some .paymentError
  | .serverError => some .exception

/-- The chain of base classes above a class, cut off by fuel (the hierarchy
here has depth at most 2, so fuel 8 is ample). -/
def ancestorChain : PyClass → Nat → List PyClass
  | _, 0 => []
  | c, n + 1 =>
    match superclass c with
    | none => []
    | some p => p :: ancestorChain p n

/-- Python `issubclass`: reflexive, then along the base-class chain.  A raised
exception of class `a` is caught by `except b` exactly when
`isSubclassOf a b = true`. -/
def isSubclassOf (a b : PyClass) : Bool :=
  a == b || (ancestorChain a 8).contains b

/-- Exception values raised by the module.  The four `PaymentError` kinds and
`ServerError` mirror the classes above; `pyRuntime` stands for any other
Python exception escaping the code (interpreter errors such as
`UnboundLocalError`, or exceptions propagated from a collaborator). -/
inductive PyErr where
  | insufficientPayment (msg : String)
  | invalidPaymentParameter (msg : String)
  | duplicatePayment (msg : String)
  | transactionBroadcast (msg : String)
  | serverError
  | pyRuntime (kind : String)
  deriving DecidableEq, Repr

/-- The Python class of each exception value. -/
def classOf : PyErr → PyClass
  | .insufficientPayment _ => .insufficientPaymentError
  | .invalidPaymentParameter _ => .invalidPaymentParameterError
  | .duplicatePayment _ => .duplicatePaymentError
  | .transactionBroadcast _ => .transactionBroadcastError
  | .serverError => .serverError
  | .pyRuntime _ => .exception

/-! ### Transaction model (collaborator codec) -/

/-- One output of a parsed bitcoin transaction: a destination address and a
value in satoshis. -/
structure TxOutput where
  address : String
  value : Int
  deriving DecidableEq, Repr

/-- A parsed transaction as consumed by `OnChain.redeem_payment`: its outputs
and its content identifier (`payment_tx.hash`, stringified by the caller). -/
structure Transaction where
  outputs : List TxOutput
  hash : String
  deriving DecidableEq, Repr

/-- Modelled from the spec: `Transaction.output_index_for_address` lives in
`two1.lib.bitcoin.txn`, which is not part of the settlement layer; the spec
describes it as locating the output paying the given address.  We take the
index of the first output whose address matches. -/
def Transaction.output_index_for_address (tx : Transaction) (addr : String) :
    Option Nat :=
  tx.outputs.findIdx? (fun o => o.address == addr)

/-! ### Dedup Ledger (collaborator database) -/

/-- The Dedup Ledger state: redemption records keyed by transaction
identifier, newest first. -/
abbrev Db := List (String × Int)

/-- Modelled from the spec: `OnChainSQLite3.get_or_create(txid, price)` from
`.models` (not part of the settlement layer) is the atomic insert-if-absent of
the Dedup Ledger, returning the record key and whether a new record was
created. -/
def get_or_create (db : Db) (txid : String) (price : Int) :
    Db × String × Bool :=
  match db.lookup txid with
  | some _ => (db, txid, false)
  | none => ((txid, price) :: db, txid, true)

/-! ### OnChain variant -/

/-- Everything observable about one `OnChain.redeem_payment` call: the ledger
state after the call, whether a broadcast was attempted, and the returned
value or raised exception. -/
structure OnChainOutcome where
  db : Db
  broadcastAttempted : Bool
  result : Except PyErr Bool
  deriving Repr

/-- `OnChain.redeem_payment` (payment_methods.py lines 117-147).  `parsed` is
the result of `Transaction.from_hex(raw_tx)` (`none` when parsing raised);
`bcast` is what `provider.broadcast_transaction(raw_tx)` would do if called
(`Except.error e` when it raises with message `e`). -/
def OnChain.redeem_payment (address : String) (db : Db) (price : Int)
    (parsed : Option Transaction) (bcast : Except String String) :
    OnChainOutcome :=
  match parsed with
  | none =>
    ⟨db, false, .error (.invalidPaymentParameter "Error: Invalid tx hex.")⟩
  | some payment_tx =>
    match payment_tx.output_index_for_address address with
    | none =>
      ⟨db, false, .error (.invalidPaymentParameter "Error: Not paid to merchant.")⟩
    | some payment_index =>
      if (payment_tx.outputs.getD payment_index ⟨"", 0⟩).value ≠ price then
        ⟨db, false, .error (.insufficientPayment "Error: Incorrect payment amount.")⟩
      else
        match get_or_create db payment_tx.hash price with
        | (db2, _, isNew) =>
          if !isNew then
            ⟨db2, false, .error (.duplicatePayment "Error: Payment already used.")⟩
          else
            match bcast with
            | .error e => ⟨db2, true, .error (.transactionBroadcast e)⟩
            | .ok _ => ⟨db2, true, .ok true⟩

/-! ### PaymentChannel variant -/

/-- `PaymentChannel.redeem_payment` (payment_methods.py lines 173-185).
`redeemResult` is what `int(self.server.redeem(txid))` would produce:
`Except.ok amount`, or `Except.error e` when the channel server raises `e`
(the `except` clause re-raises the same exception object). -/
def PaymentChannel.redeem_payment (price : Int)
    (redeemResult : Except PyErr Int) : Except PyErr Bool :=
  match redeemResult with
  | .error e => .error e
  | .ok paid_amount => .ok (paid_amount == price)

/-! ### BitTransfer variant -/

/-- Does `needle` occur at the head of `hay`? -/
def charsStartWith : List Char → List Char → Bool
  | [], _ => true
  | _ :: _, [] => false
  | a :: as, b :: bs => a == b && charsStartWith as bs

/-- Does `needle` occur anywhere in `hay`? -/
def charsContain (needle : List Char) : List Char → Bool
  | [] => needle.isEmpty
  | c :: cs => charsStartWith needle (c :: cs) || charsContain needle cs

/-- Python `needle in hay` on strings (substring containment). -/
def strContains (hay needle : String) : Bool :=
  charsContain needle.toList hay.toList

/-- A verification authority HTTP response, with the fields the code reads:
`ok`, the raw body `text`, and `jsonMessage` = the value that
`response.json()["message"]` would produce (`none` when the body is not a
JSON object with that key, in which case that access raises). -/
structure HttpResponse where
  ok : Bool
  text : String
  jsonMessage : Option String
  deriving Repr

/-- Everything observable about one `BitTransfer.redeem_payment` call: whether
the HTTP POST to the verification authority was performed, and the returned
value or raised exception. -/
structure BitTransferOutcome where
  posted : Bool
  result : Except PyErr Bool
  deriving Repr

/-- `BitTransfer.redeem_payment` (payment_methods.py lines 222-262).
`amount` is `json.loads(bittransfer)["amount"]`; `postResult` is what the
`requests.post` call would produce: `some response`, or `none` when it raises
`requests.ConnectionError` (which the code catches and merely prints, leaving
`verification_response` unbound, so the subsequent read of
`verification_response.text` raises `UnboundLocalError`). -/
def BitTransfer.redeem_payment (price : Int) (amount : Int)
    (postResult : Option HttpResponse) : BitTransferOutcome :=
  if amount ≠ price then
    ⟨false, .error (.insufficientPayment "Error: Incorrect payment amount.")⟩
  else
    match postResult with
    | some verification_response =>
      if verification_response.ok then ⟨true, .ok true⟩
      else if strContains verification_response.text "message" then
        match verification_response.jsonMessage with
        | some m => ⟨true, .error (.invalidPaymentParameter m)⟩
        | none => ⟨true, .error (.pyRuntime "ValueError")⟩
      else ⟨true, .error .serverError⟩
    | none => ⟨true, .error (.pyRuntime "UnboundLocalError")⟩

/-! ### Helper lemmas on the OnChain variant -/

/-- A call on fresh, well-formed evidence whose broadcast succeeds: the record
is inserted and the call returns true. -/
theorem OnChain.redeem_fresh_ok (address : String) (db : Db) (price : Int)
    (tx : Transaction) (i : Nat) (t : String)
    (hidx : tx.output_index_for_address address = some i)
    (hval : (tx.outputs.getD i ⟨"", 0⟩).value = price)
    (habsent : db.lookup tx.hash = none) :
    OnChain.redeem_payment address db price (some tx) (.ok t) =
      ⟨(tx.hash, price) :: db, true, .ok true⟩ := by
  rw [List.getD_eq_getElem?_getD] at hval
  simp [OnChain.redeem_payment, hidx, hval, get_or_create, habsent]

/-- A call on fresh, well-formed evidence whose broadcast raises: the record
is inserted and `TransactionBroadcastError` is raised. -/
theorem OnChain.redeem_fresh_err (address : String) (db : Db) (price : Int)
    (tx : Transaction) (i : Nat) (e : String)
    (hidx : tx.output_index_for_address address = some i)
    (hval : (tx.outputs.getD i ⟨"", 0⟩).value = price)
    (habsent : db.lookup tx.hash = none) :
    OnChain.redeem_payment address db price (some tx) (.error e) =
      ⟨(tx.hash, price) :: db, true, .error (.transactionBroadcast e)⟩ := by
  rw [List.getD_eq_getElem?_getD] at hval
  simp [OnChain.redeem_payment, hidx, hval, get_or_create, habsent]

/-- A call on well-formed evidence whose identifier is already recorded:
`DuplicatePaymentError`, ledger unchanged, no broadcast. -/
theorem OnChain.redeem_dup (address : String) (db : Db) (price q : Int)
    (tx : Transaction) (i : Nat) (bcast : Except String String)
    (hidx : tx.output_index_for_address address = some i)
    (hval : (tx.outputs.getD i ⟨"", 0⟩).value = price)
    (hpresent : db.lookup tx.hash = some q) :
    OnChain.redeem_payment address db price (some tx) bcast =
      ⟨db, false, .error (.duplicatePayment "Error: Payment already used.")⟩ := by
  rw [List.getD_eq_getElem?_getD] at hval
  simp [OnChain.redeem_payment, hidx, hval, get_or_create, hpresent]

/-- Looking up the key just inserted at the head of the ledger. -/
theorem Db.lookup_cons_self (db : Db) (k : String) (v : Int) :
    (((k, v) :: db : Db).lookup k) = some v := by
  simp [List.lookup]

/-! ### Claim theorems -/

/-- C3: with evidence that parses and has an output to the configured payout
address, `OnChain.redeem_payment` raises `InsufficientPaymentError` whenever
that output's value differs from the price in either direction, and a
successful redemption forces the output value to equal the price exactly. -/
theorem C3_exact_price_required (address : String) (db : Db) (price : Int)
    (tx : Transaction) (i : Nat) (bcast : Except String String)
    (hidx : tx.output_index_for_address address = some i) :
    ((tx.outputs.getD i ⟨"", 0⟩).value ≠ price →
      (OnChain.redeem_payment address db price (some tx) bcast).result =
        .error (.insufficientPayment "Error: Incorrect payment amount.")) ∧
    ((OnChain.redeem_payment address db price (some tx) bcast).result =
        .ok true →
      (tx.outputs.getD i ⟨"", 0⟩).value = price) := by
  constructor
  · intro hne
    rw [List.getD_eq_getElem?_getD] at hne
    simp [OnChain.redeem_payment, hidx, hne]
  · intro hok
    by_contra hne
    rw [List.getD_eq_getElem?_getD] at hne
    simp [OnChain.redeem_payment, hidx, hne] at hok

/-- C3 witness: at price 5, outputs of value 6 and of value 4 paying the
merchant address are both rejected as insufficient. -/
theorem C3_exact_price_required_witness :
    (OnChain.redeem_payment "maddr" [] 5
        (some ⟨[⟨"maddr", 6⟩], "h1"⟩) (.ok "t")).result =
      .error (.insufficientPayment "Error: Incorrect payment amount.") ∧
    (OnChain.redeem_payment "maddr" [] 5
        (some ⟨[⟨"maddr", 4⟩], "h2"⟩) (.ok "t")).result =
      .error (.insufficientPayment "Error: Incorrect payment amount.") :=
  ⟨(C3_exact_price_required "maddr" [] 5 ⟨[⟨"maddr", 6⟩], "h1"⟩ 0 (.ok "t")
      (by decide)).1 (by decide),
   (C3_exact_price_required "maddr" [] 5 ⟨[⟨"maddr", 4⟩], "h2"⟩ 0 (.ok "t")
      (by decide)).1 (by decide)⟩

/-- C8: a payload that fails to parse, and a parsed transaction with no
output paying the configured address (in particular one paying a different
address), both make `OnChain.redeem_payment` raise
`InvalidPaymentParameterError`, with the ledger returned untouched and no
broadcast attempted. -/
theorem C8_invalid_parameter_untouched (address : String) (db : Db)
    (price : Int) (tx : Transaction) (bcast : Except String String)
    (hnone : tx.output_index_for_address address = none) :
    OnChain.redeem_payment address db price none bcast =
      ⟨db, false, .error (.invalidPaymentParameter "Error: Invalid tx hex.")⟩ ∧
    OnChain.redeem_payment address db price (some tx) bcast =
      ⟨db, false, .error (.invalidPaymentParameter "Error: Not paid to merchant.")⟩ := by
  refine ⟨rfl, ?_⟩
  simp [OnChain.redeem_payment, hnone]

/-- C8 witness: an unparseable payload, and a transaction paying the correct
amount 5 to an address other than the merchant address, both yield
`InvalidPaymentParameterError` with the empty ledger unchanged. -/
theorem C8_invalid_parameter_untouched_witness :
    OnChain.redeem_payment "maddr" [] 5 none (.ok "t") =
      ⟨[], false, .error (.invalidPaymentParameter "Error: Invalid tx hex.")⟩ ∧
    OnChain.redeem_payment "maddr" [] 5 (some ⟨[⟨"other", 5⟩], "h1"⟩) (.ok "t") =
      ⟨[], false, .error (.invalidPaymentParameter "Error: Not paid to merchant.")⟩ :=
  C8_invalid_parameter_untouched "maddr" [] 5 ⟨[⟨"other", 5⟩], "h1"⟩ (.ok "t")
    (by decide)

/-- C4: a transfer whose decoded amount differs from the price is rejected
with `InsufficientPaymentError` and the HTTP POST to the verification
authority is never performed, whatever it would have returned. -/
theorem C4_amount_mismatch_skips_post (price amount : Int)
    (postResult : Option HttpResponse) (hne : amount ≠ price) :
    BitTransfer.redeem_payment price amount postResult =
      ⟨false, .error (.insufficientPayment "Error: Incorrect payment amount.")⟩ := by
  simp [BitTransfer.redeem_payment, hne]

/-- C4 witness: amount 7 against price 5 is rejected without posting. -/
theorem C4_amount_mismatch_skips_post_witness :
    BitTransfer.redeem_payment 5 7 none =
      ⟨false, .error (.insufficientPayment "Error: Incorrect payment amount.")⟩ :=
  C4_amount_mismatch_skips_post 5 7 none (by decide)

/-- C5: with the amount matching the price, the authority response decides
the outcome: ok → return true; not ok with a diagnostic message in the body →
`InvalidPaymentParameterError` carrying that message; not ok without one →
`ServerError`. -/
theorem C5_response_interpretation (price amount : Int) (r : HttpResponse)
    (m : String) (hamt : amount = price) :
    (r.ok = true →
      BitTransfer.redeem_payment price amount (some r) = ⟨true, .ok true⟩) ∧
    (r.ok = false → strContains r.text "message" = true →
      r.jsonMessage = some m →
      (BitTransfer.redeem_payment price amount (some r)).result =
        .error (.invalidPaymentParameter m)) ∧
    (r.ok = false → strContains r.text "message" = false →
      (BitTransfer.redeem_payment price amount (some r)).result =
        .error .serverError) := by
  subst hamt
  refine ⟨fun hok => ?_, fun hok hmsg hjson => ?_, fun hok hmsg => ?_⟩
  · simp [BitTransfer.redeem_payment, hok]
  · simp [BitTransfer.redeem_payment, hok, hmsg, hjson]
  · simp [BitTransfer.redeem_payment, hok, hmsg]

/-- C5 witness: the three response shapes at price 5. -/
theorem C5_response_interpretation_witness :
    BitTransfer.redeem_payment 5 5 (some ⟨true, "", none⟩) = ⟨true, .ok true⟩ ∧
    (BitTransfer.redeem_payment 5 5
        (some ⟨false, "body with message field", some "bad signature"⟩)).result =
      .error (.invalidPaymentParameter "bad signature") ∧
    (BitTransfer.redeem_payment 5 5 (some ⟨false, "bad gateway", none⟩)).result =
      .error .serverError :=
  ⟨(C5_response_interpretation 5 5 ⟨true, "", none⟩ "" rfl).1 rfl,
   (C5_response_interpretation 5 5
      ⟨false, "body with message field", some "bad signature"⟩
      "bad signature" rfl).2.1 rfl (by decide) rfl,
   (C5_response_interpretation 5 5 ⟨false, "bad gateway", none⟩ "" rfl).2.2
      rfl (by decide)⟩

/-- C6 (code defect): when the POST to the verification authority raises a
connection error, the `except` clause only prints, and the subsequent read of
the never-bound `verification_response` raises `UnboundLocalError` — an
interpreter error outside the payment taxonomy — instead of the `ServerError`
or `InvalidPaymentParameterError` outcome response-code interpretation would
produce. -/
theorem C6_connection_error_crashes :
    (BitTransfer.redeem_payment 5 5 none).result =
      .error (.pyRuntime "UnboundLocalError") ∧
    PyErr.pyRuntime "UnboundLocalError" ≠ .serverError ∧
    classOf (.pyRuntime "UnboundLocalError") ≠ .invalidPaymentParameterError := by
  refine ⟨rfl, by decide, by decide⟩

/-- C7: the channel variant returns false (without raising) when the redeemed
amount differs from the price, returns true when it matches exactly, and
propagates a redeemer exception unchanged, with its original kind. -/
theorem C7_channel_mismatch_swallowed (price paid : Int) (e : PyErr) :
    (paid ≠ price → PaymentChannel.redeem_payment price (.ok paid) = .ok false) ∧
    (paid = price → PaymentChannel.redeem_payment price (.ok paid) = .ok true) ∧
    PaymentChannel.redeem_payment price (.error e) = .error e := by
  refine ⟨fun hne => ?_, fun heq => ?_, rfl⟩
  · simp [PaymentChannel.redeem_payment, hne]
  · subst heq
    simp [PaymentChannel.redeem_payment]

/-- C7 witness: amount 4 against price 5 gives false, 5 against 5 gives true,
and a redeemer exception comes back unchanged. -/
theorem C7_channel_mismatch_swallowed_witness :
    PaymentChannel.redeem_payment 5 (.ok 4) = .ok false ∧
    PaymentChannel.redeem_payment 5 (.ok 5) = .ok true ∧
    PaymentChannel.redeem_payment 5 (.error (.pyRuntime "LookupError")) =
      .error (.pyRuntime "LookupError") :=
  ⟨(C7_channel_mismatch_swallowed 5 4 (.pyRuntime "LookupError")).1 (by decide),
   (C7_channel_mismatch_swallowed 5 5 (.pyRuntime "LookupError")).2.1 rfl,
   (C7_channel_mismatch_swallowed 5 5 (.pyRuntime "LookupError")).2.2⟩

/-- C10: `ServerError` derives `Exception` directly and is not a subclass of
`PaymentError`, so the undiagnosed-failure outcome of
`BitTransfer.redeem_payment` escapes handlers catching `PaymentError`, unlike
the four taxonomy error kinds, which all subclass `PaymentError`. -/
theorem C10_server_error_escapes (price amount : Int) (r : HttpResponse)
    (hamt : amount = price) (hok : r.ok = false)
    (hmsg : strContains r.text "message" = false) :
    (BitTransfer.redeem_payment price amount (some r)).result =
      .error .serverError ∧
    superclass .serverError = some .exception ∧
    isSubclassOf (classOf .serverError) .paymentError = false ∧
    isSubclassOf (classOf (.insufficientPayment "")) .paymentError = true ∧
    isSubclassOf (classOf (.invalidPaymentParameter "")) .paymentError = true ∧
    isSubclassOf (classOf (.duplicatePayment "")) .paymentError = true ∧
    isSubclassOf (classOf (.transactionBroadcast "")) .paymentError = true := by
  subst hamt
  refine ⟨?_, by decide, by decide, by decide, by decide, by decide, by decide⟩
  simp [BitTransfer.redeem_payment, hok, hmsg]

/-- C10 witness: an undiagnosed not-ok response at price 5. -/
theorem C10_server_error_escapes_witness :
    (BitTransfer.redeem_payment 5 5 (some ⟨false, "bad gateway", none⟩)).result =
      .error .serverError ∧
    superclass .serverError = some .exception ∧
    isSubclassOf (classOf .serverError) .paymentError = false ∧
    isSubclassOf (classOf (.insufficientPayment "")) .paymentError = true ∧
    isSubclassOf (classOf (.invalidPaymentParameter "")) .paymentError = true ∧
    isSubclassOf (classOf (.duplicatePayment "")) .paymentError = true ∧
    isSubclassOf (classOf (.transactionBroadcast "")) .paymentError = true :=
  C10_server_error_escapes 5 5 ⟨false, "bad gateway", none⟩ rfl rfl (by decide)

/-- C1: evidence that parses, pays exactly the price to the configured
address, and whose identifier is not yet recorded redeems successfully on the
first call; a second call with byte-identical evidence raises
`DuplicatePaymentError` without attempting a broadcast, whatever the
broadcast collaborator would have done on that second call. -/
theorem C1_first_succeeds_second_duplicate (address : String) (db : Db)
    (price : Int) (tx : Transaction) (i : Nat) (t : String)
    (bcast2 : Except String String)
    (hidx : tx.output_index_for_address address = some i)
    (hval : (tx.outputs.getD i ⟨"", 0⟩).value = price)
    (habsent : db.lookup tx.hash = none) :
    (OnChain.redeem_payment address db price (some tx) (.ok t)).result =
      .ok true ∧
    (OnChain.redeem_payment address
        (OnChain.redeem_payment address db price (some tx) (.ok t)).db
        price (some tx) bcast2).result =
      .error (.duplicatePayment "Error: Payment already used.") ∧
    (OnChain.redeem_payment address
        (OnChain.redeem_payment address db price (some tx) (.ok t)).db
        price (some tx) bcast2).broadcastAttempted = false := by
  rw [OnChain.redeem_fresh_ok address db price tx i t hidx hval habsent]
  rw [OnChain.redeem_dup address ((tx.hash, price) :: db) price price tx i
    bcast2 hidx hval (Db.lookup_cons_self db tx.hash price)]
  exact ⟨rfl, rfl, rfl⟩

/-- C1 witness: a transaction paying 5 to the merchant address redeems once
from the empty ledger, then duplicates. -/
theorem C1_first_succeeds_second_duplicate_witness :
    (OnChain.redeem_payment "maddr" [] 5
        (some ⟨[⟨"maddr", 5⟩], "h1"⟩) (.ok "t")).result = .ok true ∧
    (OnChain.redeem_payment "maddr"
        (OnChain.redeem_payment "maddr" [] 5
          (some ⟨[⟨"maddr", 5⟩], "h1"⟩) (.ok "t")).db
        5 (some ⟨[⟨"maddr", 5⟩], "h1"⟩) (.ok "t2")).result =
      .error (.duplicatePayment "Error: Payment already used.") ∧
    (OnChain.redeem_payment "maddr"
        (OnChain.redeem_payment "maddr" [] 5
          (some ⟨[⟨"maddr", 5⟩], "h1"⟩) (.ok "t")).db
        5 (some ⟨[⟨"maddr", 5⟩], "h1"⟩) (.ok "t2")).broadcastAttempted =
      false :=
  C1_first_succeeds_second_duplicate "maddr" [] 5 ⟨[⟨"maddr", 5⟩], "h1"⟩ 0 "t"
    (.ok "t2") (by decide) (by decide) rfl

/-- C2: when well-formed fresh evidence reaches the broadcast step and the
broadcast collaborator raises, `OnChain.redeem_payment` raises
`TransactionBroadcastError` and the ledger record created by get_or_create
for that transaction remains committed. -/
theorem C2_broadcast_failure_record_committed (address : String) (db : Db)
    (price : Int) (tx : Transaction) (i : Nat) (e : String)
    (hidx : tx.output_index_for_address address = some i)
    (hval : (tx.outputs.getD i ⟨"", 0⟩).value = price)
    (habsent : db.lookup tx.hash = none) :
    (OnChain.redeem_payment address db price (some tx) (.error e)).result =
      .error (.transactionBroadcast e) ∧
    (OnChain.redeem_payment address db price (some tx) (.error e)).db.lookup
        tx.hash = some price := by
  rw [OnChain.redeem_fresh_err address db price tx i e hidx hval habsent]
  exact ⟨rfl, Db.lookup_cons_self db tx.hash price⟩

/-- C2 witness: a failing broadcast of a fresh payment of 5 leaves the record
in the ledger. -/
theorem C2_broadcast_failure_record_committed_witness :
    (OnChain.redeem_payment "maddr" [] 5 (some ⟨[⟨"maddr", 5⟩], "h1"⟩)
        (.error "rejected")).result =
      .error (.transactionBroadcast "rejected") ∧
    (OnChain.redeem_payment "maddr" [] 5 (some ⟨[⟨"maddr", 5⟩], "h1"⟩)
        (.error "rejected")).db.lookup "h1" = some 5 :=
  C2_broadcast_failure_record_committed "maddr" [] 5 ⟨[⟨"maddr", 5⟩], "h1"⟩ 0
    "rejected" (by decide) (by decide) rfl

/-- Run `n` calls of `OnChain.redeem_payment`, all presenting the same parsed
transaction, threading the ledger from call to call.  The ledger's atomic
get-or-create is the calls' only interaction with shared state, so any
interleaving of `n` concurrent calls acts on the ledger as some such
sequential run. -/
def OnChain.runCalls (address : String) (price : Int) (tx : Transaction)
    (bcast : Except String String) : Nat → Db → Db × List OnChainOutcome
  | 0, db => (db, [])
  | n + 1, db =>
    let out := OnChain.redeem_payment address db price (some tx) bcast
    let rest := OnChain.runCalls address price tx bcast n out.db
    (rest.1, out :: rest.2)

/-- Did the call return true? -/
def isSuccess (o : OnChainOutcome) : Bool :=
  match o.result with
  | .ok true => true
  | _ => false

/-- Did the call raise `DuplicatePaymentError`? -/
def isDuplicateFailure (o : OnChainOutcome) : Bool :=
  match o.result with
  | .error (.duplicatePayment _) => true
  | _ => false

/-- Once the identifier is recorded, every further call in a run raises
`DuplicatePaymentError` and leaves the ledger unchanged. -/
theorem OnChain.runCalls_dup (address : String) (price q : Int)
    (tx : Transaction) (i : Nat) (bcast : Except String String) (n : Nat)
    (db : Db)
    (hidx : tx.output_index_for_address address = some i)
    (hval : (tx.outputs.getD i ⟨"", 0⟩).value = price)
    (hpresent : db.lookup tx.hash = some q) :
    OnChain.runCalls address price tx bcast n db =
      (db, List.replicate n
        ⟨db, false, .error (.duplicatePayment "Error: Payment already used.")⟩) := by
  induction n with
  | zero => rfl
  | succ n ih =>
    rw [OnChain.runCalls,
      OnChain.redeem_dup address db price q tx i bcast hidx hval hpresent]
    simp only [List.replicate_succ]
    rw [ih]

/-- C9: starting from a ledger without the transaction's identifier, a run of
N ≥ 1 calls presenting the same evidence — to which every interleaving of N
concurrent calls is equivalent, the atomic get-or-create being their only
shared-state operation — produces exactly one success and N − 1
`DuplicatePaymentError` failures. -/
theorem C9_n_calls_one_success (address : String) (db : Db) (price : Int)
    (tx : Transaction) (i : Nat) (t : String) (n : Nat)
    (hidx : tx.output_index_for_address address = some i)
    (hval : (tx.outputs.getD i ⟨"", 0⟩).value = price)
    (habsent : db.lookup tx.hash = none) (hn : 1 ≤ n) :
    ((OnChain.runCalls address price tx (.ok t) n db).2.filter
        isSuccess).length = 1 ∧
    ((OnChain.runCalls address price tx (.ok t) n db).2.filter
        isDuplicateFailure).length = n - 1 := by
  obtain ⟨m, rfl⟩ : ∃ m, n = m + 1 := ⟨n - 1, by omega⟩
  rw [OnChain.runCalls,
    OnChain.redeem_fresh_ok address db price tx i t hidx hval habsent,
    OnChain.runCalls_dup address price price tx i (.ok t) m
      ((tx.hash, price) :: db) hidx hval (Db.lookup_cons_self db tx.hash price)]
  simp [List.filter_replicate, isSuccess, isDuplicateFailure]

/-- C9 witness: three calls on the same payment of 5 from the empty ledger
give one success and two duplicate failures. -/
theorem C9_n_calls_one_success_witness :
    ((OnChain.runCalls "maddr" 5 ⟨[⟨"maddr", 5⟩], "h1"⟩ (.ok "t") 3 []).2.filter
        isSuccess).length = 1 ∧
    ((OnChain.runCalls "maddr" 5 ⟨[⟨"maddr", 5⟩], "h1"⟩ (.ok "t") 3 []).2.filter
        isDuplicateFailure).length = 2 :=
  C9_n_calls_one_success "maddr" [] 5 ⟨[⟨"maddr", 5⟩], "h1"⟩ 0 "t" 3
    (by decide) (by decide) rfl (by decide)

end TwoOne
